import Mathlib

/-!
Shallow embedding of `scripts/startup/bl_ui/properties_data_grease_pencil.py`.

The file defines Blender UI panel/menu classes for the grease-pencil data
properties editor.  We embed:

* the host state reachable through `context` (the grease-pencil data-block,
  its layers collection and active layer, the active object, the space data)
  as plain Lean structures;
* Python attribute access that can raise `AttributeError` (e.g.
  `context.grease_pencil` when the context does not provide that member,
  or `None.lock`) as `Except PyErr`;
* each `poll` classmethod as `Context → Except PyErr Bool` (the Bool is the
  truthiness of the Python return value);
* each `draw` method as `Context → Layout → Except PyErr (Context × Layout)`:
  the draw methods of the source only append widget declarations to the
  layout and set layout flags, and the returned `Context` lets us state
  frame conditions (the source never assigns into host state, so the
  embedding threads the context through unchanged wherever the source does).

Sub-layouts (`layout.row()`, `layout.column()`, `row.column(align=True)`)
only route widget emission in the source; the embedding flattens them into
one widget sequence on the root layout, preserving emission order.  Widget
arguments that are compile-time constants in the source (operator name,
icon, text, property name, slider flag, operator property assignments such
as `.empty_keyframes = True`) are carried verbatim in the `Widget` values.
-/

/-- Python exception outcomes that the embedded code can produce.  The only
exception reachable in this file is `AttributeError` (missing context member,
or attribute access on `None`). -/
inductive PyErr where
  | attributeError
deriving DecidableEq

/-- Parent object of a layer (`layer.parent` in the source); only its `type`
field is inspected (`layer.parent.type == 'ARMATURE'`). -/
structure ParentObject where
  type : String
deriving DecidableEq

/-- A grease-pencil layer.  The draw methods read `lock` and `parent`; the
remaining fields (`opacity`, `translation`, `rotation`, `scale`,
`parent_bone`, `pass_index`) are only referenced by name inside widget
declarations, never read, but we keep representative ones so that frame
conditions quantify over them. -/
structure Layer where
  lock : Bool
  opacity : Int
  parent : Option ParentObject
  parent_bone : String
  pass_index : Int
deriving DecidableEq

/-- The `layers` collection of a grease-pencil data-block; the source only
reads its `active` member, which is a layer or `None`. -/
structure Layers where
  active : Option Layer
deriving DecidableEq

/-- A grease-pencil data-block (`context.grease_pencil` /
`context.object.data`). -/
structure GreasePencil where
  layers : Layers
  use_autolock_layers : Bool
deriving DecidableEq

/-- The active object (`context.object`); its `data` is the grease-pencil
data-block (`context.object.data` in the menu draw). -/
structure Object where
  data : GreasePencil
deriving DecidableEq

/-- The space data (`context.space_data`); the menu draw reads its `type`. -/
structure Space where
  type : String
deriving DecidableEq

/-- The host context as seen by this file.  `grease_pencil = none` models a
context that does not provide the `grease_pencil` member at all (so that
`context.grease_pencil` raises `AttributeError` and
`hasattr(context, "grease_pencil")` is `False`); `some none` models the
member being present with value `None` (falsy); `some (some gp)` a present,
truthy data-block.  `object = none` models `context.object` being `None`. -/
structure Context where
  grease_pencil : Option (Option GreasePencil)
  object : Option Object
  space_data : Space
deriving DecidableEq

/-- Widget targets: which host datum a widget declaration points at.  The
source passes the actual Python object; the embedding names the access path
it came from. -/
inductive Target where
  | ob
  | space
  | obData
  | layer
  | layerParentData
deriving DecidableEq

/-- One widget/operator declaration emitted into the layout. -/
inductive Widget where
  | template_ID (target : Target) (field : String)
  | template_grease_pencil_layer_tree
  | operator (opname : String) (icon : Option String) (text : Option String)
      (props : List (String × Bool))
  | menu (menuName : String) (icon : Option String) (text : Option String)
  | prop (target : Target) (field : String) (text : Option String) (slider : Bool)
  | prop_search (target : Target) (field : String) (searchTarget : Target)
      (searchField : String) (text : Option String)
  | separator
deriving DecidableEq

/-- The (flattened) layout state: the widget sequence emitted so far plus the
layout flags the source assigns (`layout.active`, `layout.use_property_split`,
`layout.use_property_decorate`, `sub.operator_context`). -/
structure Layout where
  widgets : List Widget := []
  active : Bool := true
  use_property_split : Bool := false
  use_property_decorate : Bool := false
  operator_context : String := "INVOKE_DEFAULT"
deriving DecidableEq

/-- A fresh layout, as the host hands each draw call. -/
def Layout.init : Layout := {}

/-- Append one widget declaration. -/
def Layout.emit (l : Layout) (w : Widget) : Layout :=
  { l with widgets := l.widgets ++ [w] }

/-- `DataButtonsPanel.poll` (source lines 13-15):
`return hasattr(context, "grease_pencil") and context.grease_pencil`.
The `hasattr` guard makes the attribute access safe; the truthiness of the
result is `False` when the member is absent or `None`. -/
def DataButtonsPanel.poll (c : Context) : Except PyErr Bool :=
  match c.grease_pencil with
  | none => Except.ok false
  | some gp => Except.ok gp.isSome

/-- `LayerDataButtonsPanel.poll` (source lines 23-26):
`grease_pencil = context.grease_pencil` (unguarded attribute access, raises
`AttributeError` when the member is absent), then
`return grease_pencil and grease_pencil.layers.active`. -/
def LayerDataButtonsPanel.poll (c : Context) : Except PyErr Bool :=
  match c.grease_pencil with
  | none => Except.error PyErr.attributeError
  | some none => Except.ok false
  | some (some g) => Except.ok g.layers.active.isSome

/-- `DATA_PT_context_grease_pencil.draw` (source lines 33-43):
fetches `context.object`, `context.grease_pencil` (unguarded) and
`context.space_data`; then `if ob: template_ID(ob, "data")
elif grease_pencil: template_ID(space, "pin_id")`. -/
def DATA_PT_context_grease_pencil.draw (c : Context) (l : Layout) :
    Except PyErr (Context × Layout) :=
  match c.grease_pencil with
  | none => Except.error PyErr.attributeError
  | some gp =>
    match c.object with
    | some _ => Except.ok (c, l.emit (Widget.template_ID Target.ob "data"))
    | none =>
      match gp with
      | some _ => Except.ok (c, l.emit (Widget.template_ID Target.space "pin_id"))
      | none => Except.ok (c, l)

/-- `GREASE_PENCIL_MT_grease_pencil_add_layer_extra.draw` (source lines
49-70): `grease_pencil = context.object.data` raises when `context.object`
is `None`; then the "Add Group" operator is emitted only when
`space.type == 'PROPERTIES'`, followed by the unconditional entries. -/
def GREASE_PENCIL_MT_grease_pencil_add_layer_extra.draw (c : Context) (l : Layout) :
    Except PyErr (Context × Layout) :=
  match c.object with
  | none => Except.error PyErr.attributeError
  | some _ =>
    let l :=
      if c.space_data.type = "PROPERTIES" then
        l.emit (Widget.operator "grease_pencil.layer_group_add" none (some "Add Group") [])
      else l
    let l := l.emit Widget.separator
    let l := l.emit (Widget.operator "grease_pencil.layer_duplicate"
      (some "DUPLICATE") (some "Duplicate") [])
    let l := l.emit (Widget.operator "grease_pencil.layer_duplicate"
      none (some "Duplicate Empty Keyframes") [("empty_keyframes", true)])
    let l := l.emit Widget.separator
    let l := l.emit (Widget.operator "grease_pencil.layer_reveal"
      (some "RESTRICT_VIEW_OFF") (some "Show All") [])
    let l := l.emit (Widget.operator "grease_pencil.layer_hide"
      (some "RESTRICT_VIEW_ON") (some "Hide Others") [("unselected", true)])
    let l := l.emit Widget.separator
    let l := l.emit (Widget.operator "grease_pencil.layer_lock_all"
      (some "LOCKED") (some "Lock All") [])
    let l := l.emit (Widget.operator "grease_pencil.layer_lock_all"
      (some "UNLOCKED") (some "Unlock All") [("lock", false)])
    let l := l.emit Widget.separator
    let l := l.emit (Widget.prop Target.obData "use_autolock_layers"
      (some "Autolock Inactive Layers") false)
    Except.ok (c, l)

/-- `DATA_PT_grease_pencil_layers.draw` (source lines 76-100):
`layer = grease_pencil.layers.active` raises when `context.grease_pencil`
is absent or `None`; the layer-tree template, add/extra/remove buttons are
unconditional (with `sub.operator_context = 'EXEC_DEFAULT'`); the opacity
row is guarded by `if layer:`. -/
def DATA_PT_grease_pencil_layers.draw (c : Context) (l : Layout) :
    Except PyErr (Context × Layout) :=
  match c.grease_pencil with
  | none => Except.error PyErr.attributeError
  | some none => Except.error PyErr.attributeError
  | some (some g) =>
    let layer := g.layers.active
    let l := l.emit Widget.template_grease_pencil_layer_tree
    let l := { l with operator_context := "EXEC_DEFAULT" }
    let l := l.emit (Widget.operator "grease_pencil.layer_add" (some "ADD") (some "") [])
    let l := l.emit (Widget.menu "GREASE_PENCIL_MT_grease_pencil_add_layer_extra"
      (some "DOWNARROW_HLT") (some ""))
    let l := l.emit (Widget.operator "grease_pencil.layer_remove" (some "REMOVE") (some "") [])
    match layer with
    | some _ =>
      let l := { l with use_property_split := true, use_property_decorate := true }
      Except.ok (c, l.emit (Widget.prop Target.layer "opacity" (some "Opacity") true))
    | none => Except.ok (c, l)

/-- `DATA_PT_grease_pencil_layer_transform.draw` (source lines 108-123):
sets `use_property_split`, fetches the active layer and reads `layer.lock`
with no presence guard (`None.lock` raises), sets
`layout.active = not layer.lock`, then emits the three transform rows. -/
def DATA_PT_grease_pencil_layer_transform.draw (c : Context) (l : Layout) :
    Except PyErr (Context × Layout) :=
  match c.grease_pencil with
  | none => Except.error PyErr.attributeError
  | some none => Except.error PyErr.attributeError
  | some (some g) =>
    match g.layers.active with
    | none => Except.error PyErr.attributeError
    | some layer =>
      let l := { l with use_property_split := true }
      let l := { l with active := !layer.lock }
      let l := l.emit (Widget.prop Target.layer "translation" none false)
      let l := l.emit (Widget.prop Target.layer "rotation" none false)
      let l := l.emit (Widget.prop Target.layer "scale" none false)
      Except.ok (c, l)

/-- `DATA_PT_grease_pencil_layer_relations.draw` (source lines 131-149):
same unguarded `layer.lock` read; emits the parent row, a bone search row
only when `layer.parent and layer.parent.type == 'ARMATURE'`, a separator
and the pass-index row. -/
def DATA_PT_grease_pencil_layer_relations.draw (c : Context) (l : Layout) :
    Except PyErr (Context × Layout) :=
  match c.grease_pencil with
  | none => Except.error PyErr.attributeError
  | some none => Except.error PyErr.attributeError
  | some (some g) =>
    match g.layers.active with
    | none => Except.error PyErr.attributeError
    | some layer =>
      let l := { l with use_property_split := true }
      let l := { l with active := !layer.lock }
      let l := l.emit (Widget.prop Target.layer "parent" (some "Parent") false)
      let l :=
        match layer.parent with
        | some p =>
          if p.type = "ARMATURE" then
            l.emit (Widget.prop_search Target.layer "parent_bone"
              Target.layerParentData "bones" (some "Bone"))
          else l
        | none => l
      let l := l.emit Widget.separator
      Except.ok (c, l.emit (Widget.prop Target.layer "pass_index" none false))

/-- The registrable classes defined by this file. -/
inductive UIClass where
  | DATA_PT_context_grease_pencil
  | DATA_PT_grease_pencil_layers
  | DATA_PT_grease_pencil_layer_transform
  | DATA_PT_grease_pencil_layer_relations
  | GREASE_PENCIL_MT_grease_pencil_add_layer_extra
deriving DecidableEq

/-- The `classes` tuple (source lines 152-158), in source order. -/
def classes : List UIClass :=
  [UIClass.DATA_PT_context_grease_pencil,
   UIClass.DATA_PT_grease_pencil_layers,
   UIClass.DATA_PT_grease_pencil_layer_transform,
   UIClass.DATA_PT_grease_pencil_layer_relations,
   UIClass.GREASE_PENCIL_MT_grease_pencil_add_layer_extra]

/-- Static class-level declarations of a panel class (a menu only has
`bl_label`). -/
structure PanelDecl where
  bl_space_type : Option String := none
  bl_region_type : Option String := none
  bl_context : Option String := none
  bl_label : String
  bl_parent_id : Option String := none
  bl_options : List String := []
deriving DecidableEq

/-- Class attributes of `DATA_PT_context_grease_pencil` (lines 29-31 plus the
`DataButtonsPanel` mixin, lines 8-11). -/
def DATA_PT_context_grease_pencil.decl : PanelDecl :=
  { bl_space_type := some "PROPERTIES", bl_region_type := some "WINDOW",
    bl_context := some "data", bl_label := "", bl_options := ["HIDE_HEADER"] }

/-- Class attributes of `DATA_PT_grease_pencil_layers` (lines 73-74 plus the
`DataButtonsPanel` mixin). -/
def DATA_PT_grease_pencil_layers.decl : PanelDecl :=
  { bl_space_type := some "PROPERTIES", bl_region_type := some "WINDOW",
    bl_context := some "data", bl_label := "Layers" }

/-- Class attributes of `DATA_PT_grease_pencil_layer_transform` (lines
103-106 plus the `LayerDataButtonsPanel` mixin, lines 18-21). -/
def DATA_PT_grease_pencil_layer_transform.decl : PanelDecl :=
  { bl_space_type := some "PROPERTIES", bl_region_type := some "WINDOW",
    bl_context := some "data", bl_label := "Transform",
    bl_parent_id := some "DATA_PT_grease_pencil_layers",
    bl_options := ["DEFAULT_CLOSED"] }

/-- Class attributes of `DATA_PT_grease_pencil_layer_relations` (lines
126-129 plus the `LayerDataButtonsPanel` mixin). -/
def DATA_PT_grease_pencil_layer_relations.decl : PanelDecl :=
  { bl_space_type := some "PROPERTIES", bl_region_type := some "WINDOW",
    bl_context := some "data", bl_label := "Relations",
    bl_parent_id := some "DATA_PT_grease_pencil_layers",
    bl_options := ["DEFAULT_CLOSED"] }

/-- Class attributes of `GREASE_PENCIL_MT_grease_pencil_add_layer_extra`
(line 47). -/
def GREASE_PENCIL_MT_grease_pencil_add_layer_extra.decl : PanelDecl :=
  { bl_label := "Add Extra" }

/-- Operator identifiers this file dispatches (all in the host's
`grease_pencil.*` namespace). -/
def allowedOps : List String :=
  ["grease_pencil.layer_add", "grease_pencil.layer_remove",
   "grease_pencil.layer_group_add", "grease_pencil.layer_duplicate",
   "grease_pencil.layer_reveal", "grease_pencil.layer_hide",
   "grease_pencil.layer_lock_all"]

/-- The operator identifiers occurring in a widget sequence, in order. -/
def opsOf (ws : List Widget) : List String :=
  ws.filterMap fun w =>
    match w with
    | Widget.operator n _ _ _ => some n
    | _ => none

/-- Sample unlocked layer with no parent. -/
def sampleLayer : Layer :=
  { lock := false, opacity := 1, parent := none, parent_bone := "", pass_index := 0 }

/-- Sample locked layer. -/
def lockedLayer : Layer :=
  { lock := true, opacity := 1, parent := none, parent_bone := "", pass_index := 0 }

/-- Sample grease-pencil data-block with an active layer. -/
def sampleGP : GreasePencil :=
  { layers := { active := some sampleLayer }, use_autolock_layers := false }

/-- Sample grease-pencil data-block with no active layer. -/
def gpNoLayer : GreasePencil :=
  { layers := { active := none }, use_autolock_layers := false }

/-- Sample grease-pencil data-block whose active layer is locked. -/
def gpLocked : GreasePencil :=
  { layers := { active := some lockedLayer }, use_autolock_layers := false }

/-- Context with everything present: grease-pencil member, active layer,
object, properties-editor space. -/
def ctxFull : Context :=
  { grease_pencil := some (some sampleGP), object := some { data := sampleGP },
    space_data := { type := "PROPERTIES" } }

/-- Context that does not provide the `grease_pencil` member at all. -/
def ctxNoAttr : Context :=
  { grease_pencil := none, object := none, space_data := { type := "PROPERTIES" } }

/-- Context whose grease-pencil data-block has no active layer. -/
def ctxNoLayer : Context :=
  { grease_pencil := some (some gpNoLayer), object := some { data := gpNoLayer },
    space_data := { type := "PROPERTIES" } }

/-- Context whose active layer is locked. -/
def ctxLocked : Context :=
  { grease_pencil := some (some gpLocked), object := some { data := gpLocked },
    space_data := { type := "PROPERTIES" } }

/-- Context with a grease-pencil member but no object, in a non-properties
space. -/
def ctxNoObject : Context :=
  { grease_pencil := some (some sampleGP), object := none,
    space_data := { type := "VIEW_3D" } }

/-- Context with pinned grease-pencil data but no active object, in the
properties editor (`template_ID(space, "pin_id")` is the branch that shows
this state is reachable). -/
def ctxPinned : Context :=
  { grease_pencil := some (some sampleGP), object := none,
    space_data := { type := "PROPERTIES" } }

/-- Whether an embedded Python call returned normally (no exception). -/
def pyOk : Except PyErr (Context × Layout) → Bool
  | Except.ok _ => true
  | Except.error _ => false

/-- Whether an embedded `poll` returned normally (no exception). -/
def pollOk : Except PyErr Bool → Bool
  | Except.ok _ => true
  | Except.error _ => false

/-- The `active` flag of the layout a draw call returned, when it returned. -/
def resultActive : Except PyErr (Context × Layout) → Option Bool
  | Except.ok r => some r.2.active
  | Except.error _ => none

/-- The widget sequence of the layout a draw call returned, when it
returned. -/
def resultWidgets : Except PyErr (Context × Layout) → Option (List Widget)
  | Except.ok r => some r.2.widgets
  | Except.error _ => none

/-- The menu entries of `GREASE_PENCIL_MT_grease_pencil_add_layer_extra.draw`
that follow the space-type check, emitted on every completing invocation. -/
def menuCommonWidgets : List Widget :=
  [Widget.separator,
   Widget.operator "grease_pencil.layer_duplicate" (some "DUPLICATE") (some "Duplicate") [],
   Widget.operator "grease_pencil.layer_duplicate" none (some "Duplicate Empty Keyframes")
     [("empty_keyframes", true)],
   Widget.separator,
   Widget.operator "grease_pencil.layer_reveal" (some "RESTRICT_VIEW_OFF") (some "Show All") [],
   Widget.operator "grease_pencil.layer_hide" (some "RESTRICT_VIEW_ON") (some "Hide Others")
     [("unselected", true)],
   Widget.separator,
   Widget.operator "grease_pencil.layer_lock_all" (some "LOCKED") (some "Lock All") [],
   Widget.operator "grease_pencil.layer_lock_all" (some "UNLOCKED") (some "Unlock All")
     [("lock", false)],
   Widget.separator,
   Widget.prop Target.obData "use_autolock_layers" (some "Autolock Inactive Layers") false]

/-- The unconditional widget prefix of `DATA_PT_grease_pencil_layers.draw`:
layer tree, add button, extra menu, remove button. -/
def layersFixedWidgets : List Widget :=
  [Widget.template_grease_pencil_layer_tree,
   Widget.operator "grease_pencil.layer_add" (some "ADD") (some "") [],
   Widget.menu "GREASE_PENCIL_MT_grease_pencil_add_layer_extra" (some "DOWNARROW_HLT") (some ""),
   Widget.operator "grease_pencil.layer_remove" (some "REMOVE") (some "") []]

/-- The bone-search row of the Relations panel, present exactly when the
layer has an armature parent. -/
def relationsParentWidgets (la : Layer) : List Widget :=
  match la.parent with
  | some p =>
    if p.type = "ARMATURE" then
      [Widget.prop_search Target.layer "parent_bone" Target.layerParentData "bones" (some "Bone")]
    else []
  | none => []

/-- The value `GREASE_PENCIL_MT_grease_pencil_add_layer_extra.draw` returns
at `ctxFull` with a fresh layout (used to instantiate hypotheses at a
concrete input). -/
def menuResultPair : Context × Layout :=
  (ctxFull,
   { widgets := Widget.operator "grease_pencil.layer_group_add" none (some "Add Group") []
       :: menuCommonWidgets })

/-- C5: the `classes` tuple passed to registration contains exactly the four
panel classes and the one menu class, in source order, each exactly once and
no other class. -/
theorem C5_classes_exact :
    classes = [UIClass.DATA_PT_context_grease_pencil,
      UIClass.DATA_PT_grease_pencil_layers,
      UIClass.DATA_PT_grease_pencil_layer_transform,
      UIClass.DATA_PT_grease_pencil_layer_relations,
      UIClass.GREASE_PENCIL_MT_grease_pencil_add_layer_extra] ∧
    classes.Nodup ∧ ∀ u : UIClass, u ∈ classes := by
  refine ⟨rfl, by decide, ?_⟩
  intro u
  cases u <;> simp [classes]

/-- C6: the Transform and Relations panels both declare
`bl_parent_id = "DATA_PT_grease_pencil_layers"` and both carry the
`DEFAULT_CLOSED` option; these are fixed class-level constants of the
embedding (the draw/poll functions neither read nor produce them). -/
theorem C6_static_decls :
    DATA_PT_grease_pencil_layer_transform.decl.bl_parent_id =
      some "DATA_PT_grease_pencil_layers" ∧
    DATA_PT_grease_pencil_layer_relations.decl.bl_parent_id =
      some "DATA_PT_grease_pencil_layers" ∧
    DATA_PT_grease_pencil_layer_transform.decl.bl_options = ["DEFAULT_CLOSED"] ∧
    DATA_PT_grease_pencil_layer_relations.decl.bl_options = ["DEFAULT_CLOSED"] ∧
    DATA_PT_grease_pencil_layer_transform.decl.bl_label = "Transform" ∧
    DATA_PT_grease_pencil_layer_relations.decl.bl_label = "Relations" :=
  ⟨rfl, rfl, rfl, rfl, rfl, rfl⟩

/-- C7: every poll and draw method is deterministic: equal context (and
layout) state yields identical poll results and identical emitted widget
sequences; the embedding exposes no other input. -/
theorem C7_deterministic (c1 c2 : Context) (l1 l2 : Layout)
    (hc : c1 = c2) (hl : l1 = l2) :
    DataButtonsPanel.poll c1 = DataButtonsPanel.poll c2 ∧
    LayerDataButtonsPanel.poll c1 = LayerDataButtonsPanel.poll c2 ∧
    DATA_PT_context_grease_pencil.draw c1 l1 = DATA_PT_context_grease_pencil.draw c2 l2 ∧
    GREASE_PENCIL_MT_grease_pencil_add_layer_extra.draw c1 l1 =
      GREASE_PENCIL_MT_grease_pencil_add_layer_extra.draw c2 l2 ∧
    DATA_PT_grease_pencil_layers.draw c1 l1 = DATA_PT_grease_pencil_layers.draw c2 l2 ∧
    DATA_PT_grease_pencil_layer_transform.draw c1 l1 =
      DATA_PT_grease_pencil_layer_transform.draw c2 l2 ∧
    DATA_PT_grease_pencil_layer_relations.draw c1 l1 =
      DATA_PT_grease_pencil_layer_relations.draw c2 l2 := by
  subst hc
  subst hl
  exact ⟨rfl, rfl, rfl, rfl, rfl, rfl, rfl⟩

/-- C7 witness: the determinism theorem applied at a concrete context and
fresh layout. -/
theorem C7_deterministic_witness :
    DataButtonsPanel.poll ctxFull = DataButtonsPanel.poll ctxFull ∧
    LayerDataButtonsPanel.poll ctxFull = LayerDataButtonsPanel.poll ctxFull ∧
    DATA_PT_context_grease_pencil.draw ctxFull Layout.init =
      DATA_PT_context_grease_pencil.draw ctxFull Layout.init ∧
    GREASE_PENCIL_MT_grease_pencil_add_layer_extra.draw ctxFull Layout.init =
      GREASE_PENCIL_MT_grease_pencil_add_layer_extra.draw ctxFull Layout.init ∧
    DATA_PT_grease_pencil_layers.draw ctxFull Layout.init =
      DATA_PT_grease_pencil_layers.draw ctxFull Layout.init ∧
    DATA_PT_grease_pencil_layer_transform.draw ctxFull Layout.init =
      DATA_PT_grease_pencil_layer_transform.draw ctxFull Layout.init ∧
    DATA_PT_grease_pencil_layer_relations.draw ctxFull Layout.init =
      DATA_PT_grease_pencil_layer_relations.draw ctxFull Layout.init :=
  C7_deterministic ctxFull ctxFull Layout.init Layout.init rfl rfl

/-- C2 counterexample: at a context that does not provide the
`grease_pencil` member (so the data-block is absent), the shared poll does
not return a falsy result: it raises `AttributeError`, refuting the claim
quantified over every context value. -/
theorem C2_counterexample :
    ctxNoAttr.grease_pencil = none ∧
    LayerDataButtonsPanel.poll ctxNoAttr = Except.error PyErr.attributeError :=
  ⟨rfl, rfl⟩

/-- C2 (amended): on every context that provides the `grease_pencil`
member, `LayerDataButtonsPanel.poll` returns a falsy result exactly when the
data-block is `None` or its layers collection has no active layer (on a
context without the member it instead raises `AttributeError`). -/
theorem C2_poll_falsy_iff (c : Context) (v : Option GreasePencil)
    (h : c.grease_pencil = some v) :
    LayerDataButtonsPanel.poll c = Except.ok false ↔
      (v = none ∨ ∃ g, v = some g ∧ g.layers.active = none) := by
  cases v with
  | none => simp [LayerDataButtonsPanel.poll, h]
  | some g =>
    cases ha : g.layers.active with
    | none => simp [LayerDataButtonsPanel.poll, h, ha]
    | some la => simp [LayerDataButtonsPanel.poll, h, ha]

/-- C2 witness: the amended biconditional applied at a concrete context
whose grease-pencil data-block has no active layer. -/
theorem C2_poll_falsy_iff_witness :
    LayerDataButtonsPanel.poll ctxNoLayer = Except.ok false ↔
      (some gpNoLayer = none ∨
        ∃ g, some gpNoLayer = some g ∧ g.layers.active = none) :=
  C2_poll_falsy_iff ctxNoLayer (some gpNoLayer) rfl

/-- Helper: emitting a widget does not change the layout flags. -/
theorem Layout.emit_active (l : Layout) (w : Widget) : (l.emit w).active = l.active := rfl

/-- Helper: shape of the menu draw result when the active object is
present. -/
theorem menu_draw_eq (c : Context) (l : Layout) (o : Object)
    (hob : c.object = some o) :
    GREASE_PENCIL_MT_grease_pencil_add_layer_extra.draw c l =
      Except.ok (c, { l with widgets := l.widgets ++
        ((if c.space_data.type = "PROPERTIES" then
            [Widget.operator "grease_pencil.layer_group_add" none (some "Add Group") []]
          else []) ++ menuCommonWidgets) }) := by
  obtain ⟨gp, ob, sp⟩ := c
  simp only [Context.object] at hob
  subst hob
  by_cases hsp : sp.type = "PROPERTIES" <;>
    simp [GREASE_PENCIL_MT_grease_pencil_add_layer_extra.draw, Layout.emit,
      menuCommonWidgets, hsp]

/-- Helper: shape of the context-panel draw result when the context provides
the grease-pencil member. -/
theorem ctx_draw_eq (c : Context) (l : Layout) (v : Option GreasePencil)
    (hgp : c.grease_pencil = some v) :
    DATA_PT_context_grease_pencil.draw c l = Except.ok (c,
      if c.object.isSome then l.emit (Widget.template_ID Target.ob "data")
      else if v.isSome then l.emit (Widget.template_ID Target.space "pin_id")
      else l) := by
  obtain ⟨gp, ob, sp⟩ := c
  simp only [Context.grease_pencil] at hgp
  subst hgp
  rcases ob with _ | o <;> rcases v with _ | g <;>
    simp [DATA_PT_context_grease_pencil.draw]

/-- Helper: shape of the Layers panel draw result when the grease-pencil
data-block is present. -/
theorem layers_draw_eq (c : Context) (l : Layout) (g : GreasePencil)
    (hgp : c.grease_pencil = some (some g)) :
    DATA_PT_grease_pencil_layers.draw c l = Except.ok (c,
      { widgets := l.widgets ++ (layersFixedWidgets ++
          (if g.layers.active.isSome then
            [Widget.prop Target.layer "opacity" (some "Opacity") true]
          else [])),
        active := l.active,
        use_property_split := if g.layers.active.isSome then true else l.use_property_split,
        use_property_decorate := if g.layers.active.isSome then true else l.use_property_decorate,
        operator_context := "EXEC_DEFAULT" }) := by
  obtain ⟨gp, ob, sp⟩ := c
  simp only [Context.grease_pencil] at hgp
  subst hgp
  rcases hla : g.layers.active with _ | la <;>
    simp [DATA_PT_grease_pencil_layers.draw, Layout.emit, layersFixedWidgets, hla]

/-- Helper: shape of the Transform panel draw result when an active layer
exists. -/
theorem transform_draw_eq (c : Context) (l : Layout) (g : GreasePencil) (la : Layer)
    (hgp : c.grease_pencil = some (some g)) (hla : g.layers.active = some la) :
    DATA_PT_grease_pencil_layer_transform.draw c l = Except.ok (c,
      { widgets := l.widgets ++
          [Widget.prop Target.layer "translation" none false,
           Widget.prop Target.layer "rotation" none false,
           Widget.prop Target.layer "scale" none false],
        active := !la.lock,
        use_property_split := true,
        use_property_decorate := l.use_property_decorate,
        operator_context := l.operator_context }) := by
  obtain ⟨gp, ob, sp⟩ := c
  simp only [Context.grease_pencil] at hgp
  subst hgp
  simp [DATA_PT_grease_pencil_layer_transform.draw, Layout.emit, hla]

/-- Helper: shape of the Relations panel draw result when an active layer
exists. -/
theorem relations_draw_eq (c : Context) (l : Layout) (g : GreasePencil) (la : Layer)
    (hgp : c.grease_pencil = some (some g)) (hla : g.layers.active = some la) :
    DATA_PT_grease_pencil_layer_relations.draw c l = Except.ok (c,
      { widgets := l.widgets ++
          ([Widget.prop Target.layer "parent" (some "Parent") false] ++
            relationsParentWidgets la ++
            [Widget.separator, Widget.prop Target.layer "pass_index" none false]),
        active := !la.lock,
        use_property_split := true,
        use_property_decorate := l.use_property_decorate,
        operator_context := l.operator_context }) := by
  obtain ⟨gp, ob, sp⟩ := c
  simp only [Context.grease_pencil] at hgp
  subst hgp
  rcases hp : la.parent with _ | p
  · simp [DATA_PT_grease_pencil_layer_relations.draw, Layout.emit,
      relationsParentWidgets, hla, hp]
  · by_cases harm : p.type = "ARMATURE" <;>
      simp [DATA_PT_grease_pencil_layer_relations.draw, Layout.emit,
        relationsParentWidgets, hla, hp, harm]

/-- C1 counterexample: `LayerDataButtonsPanel.poll` raises `AttributeError`
at a context without the `grease_pencil` member, and
`DATA_PT_grease_pencil_layer_transform.draw` raises (via the unguarded
`layer.lock` access) at a context whose active layer is absent — refuting
the claim that every such failure is guarded and no poll or draw method
raises. -/
theorem C1_counterexample :
    LayerDataButtonsPanel.poll ctxNoAttr = Except.error PyErr.attributeError ∧
    DATA_PT_grease_pencil_layer_transform.draw ctxNoLayer Layout.init =
      Except.error PyErr.attributeError :=
  ⟨rfl, rfl⟩

/-- C1 (amended): `DataButtonsPanel.poll` never raises (its attribute access
is guarded by `hasattr`); `LayerDataButtonsPanel.poll` raises exactly when
the context lacks the `grease_pencil` member; each panel draw method
completes without raising on every context whose poll predicate returns
truthy (in particular the Layers panel skips the layer widgets via
`if layer:` when no layer is active), and the Add Extra menu draw completes
whenever the context has an active object. -/
theorem C1_amended_guards (c : Context) (l : Layout) :
    pollOk (DataButtonsPanel.poll c) = true ∧
    (pollOk (LayerDataButtonsPanel.poll c) = true ↔ c.grease_pencil ≠ none) ∧
    (DataButtonsPanel.poll c = Except.ok true →
      pyOk (DATA_PT_context_grease_pencil.draw c l) = true ∧
      pyOk (DATA_PT_grease_pencil_layers.draw c l) = true) ∧
    (LayerDataButtonsPanel.poll c = Except.ok true →
      pyOk (DATA_PT_grease_pencil_layer_transform.draw c l) = true ∧
      pyOk (DATA_PT_grease_pencil_layer_relations.draw c l) = true) ∧
    (c.object ≠ none →
      pyOk (GREASE_PENCIL_MT_grease_pencil_add_layer_extra.draw c l) = true) := by
  obtain ⟨gp, ob, sp⟩ := c
  refine ⟨?_, ?_, ?_, ?_, ?_⟩
  · cases gp <;> simp [DataButtonsPanel.poll, pollOk]
  · rcases gp with _ | (_ | g) <;> simp [LayerDataButtonsPanel.poll, pollOk]
  · intro h
    rcases gp with _ | (_ | g)
    · simp [DataButtonsPanel.poll] at h
    · simp [DataButtonsPanel.poll] at h
    · rcases ob with _ | o <;> rcases hla : g.layers.active with _ | la <;>
        simp [DATA_PT_context_grease_pencil.draw, DATA_PT_grease_pencil_layers.draw,
          pyOk, hla]
  · intro h
    rcases gp with _ | (_ | g)
    · simp [LayerDataButtonsPanel.poll] at h
    · simp [LayerDataButtonsPanel.poll] at h
    · rcases hla : g.layers.active with _ | la
      · simp [LayerDataButtonsPanel.poll, hla] at h
      · rcases hp : la.parent with _ | p
        · simp [DATA_PT_grease_pencil_layer_transform.draw,
            DATA_PT_grease_pencil_layer_relations.draw, pyOk, hla, hp]
        · by_cases harm : p.type = "ARMATURE" <;>
            simp [DATA_PT_grease_pencil_layer_transform.draw,
              DATA_PT_grease_pencil_layer_relations.draw, pyOk, hla, hp, harm]
  · intro h
    rcases ob with _ | o
    · simp at h
    · simp [GREASE_PENCIL_MT_grease_pencil_add_layer_extra.draw, pyOk]

/-- C1 witness: the amended guard theorem applied at a concrete context with
all hypotheses discharged. -/
theorem C1_amended_guards_witness :
    pollOk (DataButtonsPanel.poll ctxFull) = true ∧
    pyOk (DATA_PT_grease_pencil_layers.draw ctxFull Layout.init) = true ∧
    pyOk (DATA_PT_grease_pencil_layer_transform.draw ctxFull Layout.init) = true ∧
    pyOk (GREASE_PENCIL_MT_grease_pencil_add_layer_extra.draw ctxFull Layout.init) = true :=
  ⟨(C1_amended_guards ctxFull Layout.init).1,
   ((C1_amended_guards ctxFull Layout.init).2.2.1 rfl).2,
   ((C1_amended_guards ctxFull Layout.init).2.2.2.1 rfl).1,
   (C1_amended_guards ctxFull Layout.init).2.2.2.2 (by decide)⟩

/-- C3: every draw method leaves the host state reachable through the
context unchanged: projecting the context out of any completed invocation
yields the input context (and on an exception no state was produced at
all); the methods only append widget declarations to the layout. -/
theorem C3_context_unchanged (c : Context) (l : Layout) :
    (DATA_PT_context_grease_pencil.draw c l).map Prod.fst =
      (DATA_PT_context_grease_pencil.draw c l).map (fun _ => c) ∧
    (GREASE_PENCIL_MT_grease_pencil_add_layer_extra.draw c l).map Prod.fst =
      (GREASE_PENCIL_MT_grease_pencil_add_layer_extra.draw c l).map (fun _ => c) ∧
    (DATA_PT_grease_pencil_layers.draw c l).map Prod.fst =
      (DATA_PT_grease_pencil_layers.draw c l).map (fun _ => c) ∧
    (DATA_PT_grease_pencil_layer_transform.draw c l).map Prod.fst =
      (DATA_PT_grease_pencil_layer_transform.draw c l).map (fun _ => c) ∧
    (DATA_PT_grease_pencil_layer_relations.draw c l).map Prod.fst =
      (DATA_PT_grease_pencil_layer_relations.draw c l).map (fun _ => c) := by
  obtain ⟨gp, ob, sp⟩ := c
  refine ⟨?_, ?_, ?_, ?_, ?_⟩
  · rcases gp with _ | (_ | g) <;> rcases ob with _ | o <;> rfl
  · rcases ob with _ | o <;> rfl
  · rcases gp with _ | (_ | g)
    · rfl
    · rfl
    · rcases hla : g.layers.active with _ | la <;>
        simp [DATA_PT_grease_pencil_layers.draw, hla, Except.map]
  · rcases gp with _ | (_ | g)
    · rfl
    · rfl
    · rcases hla : g.layers.active with _ | la <;>
        simp [DATA_PT_grease_pencil_layer_transform.draw, hla, Except.map]
  · rcases gp with _ | (_ | g)
    · rfl
    · rfl
    · rcases hla : g.layers.active with _ | la <;>
        simp [DATA_PT_grease_pencil_layer_relations.draw, hla, Except.map]

/-- Helper: operator identifiers distribute over widget-list append. -/
theorem mem_opsOf_append (n : String) (xs ys : List Widget) :
    n ∈ opsOf (xs ++ ys) ↔ n ∈ opsOf xs ∨ n ∈ opsOf ys := by
  simp [opsOf, List.filterMap_append]

/-- Helper: the conditional bone-search row contains no operator dispatch. -/
theorem opsOf_relationsParentWidgets (la : Layer) :
    opsOf (relationsParentWidgets la) = [] := by
  rcases hp : la.parent with _ | p
  · simp [relationsParentWidgets, hp, opsOf]
  · by_cases harm : p.type = "ARMATURE" <;>
      simp [relationsParentWidgets, hp, harm, opsOf]

/-- C4: every operator dispatched by any completed draw invocation of this
file (beyond operators already present in the incoming layout) is one of the
seven host operator identifiers in the `grease_pencil.*` namespace; property
edits only ever appear as host widget declarations (`prop`, `prop_search`,
`template_ID`), which is enforced by the `Widget` type of the embedding. -/
theorem C4_delegation (c : Context) (l : Layout) (r : Context × Layout) (n : String)
    (hdraw :
      DATA_PT_context_grease_pencil.draw c l = Except.ok r ∨
      GREASE_PENCIL_MT_grease_pencil_add_layer_extra.draw c l = Except.ok r ∨
      DATA_PT_grease_pencil_layers.draw c l = Except.ok r ∨
      DATA_PT_grease_pencil_layer_transform.draw c l = Except.ok r ∨
      DATA_PT_grease_pencil_layer_relations.draw c l = Except.ok r)
    (hn : n ∈ opsOf r.2.widgets) :
    n ∈ opsOf l.widgets ∨ n ∈ allowedOps := by
  rcases hdraw with h | h | h | h | h
  · rcases hgp : c.grease_pencil with _ | v
    · simp [DATA_PT_context_grease_pencil.draw, hgp] at h
    · rw [ctx_draw_eq c l v hgp] at h
      obtain rfl := (Except.ok.inj h).symm
      rcases hob : c.object with _ | o
      · rcases v with _ | g
        · simp [hob] at hn
          exact Or.inl hn
        · simp [hob, Layout.emit] at hn
          rw [mem_opsOf_append] at hn
          rcases hn with hn | hn
          · exact Or.inl hn
          · simp [opsOf] at hn
      · simp [hob, Layout.emit] at hn
        rw [mem_opsOf_append] at hn
        rcases hn with hn | hn
        · exact Or.inl hn
        · simp [opsOf] at hn
  · rcases hob : c.object with _ | o
    · simp [GREASE_PENCIL_MT_grease_pencil_add_layer_extra.draw, hob] at h
    · rw [menu_draw_eq c l o hob] at h
      obtain rfl := (Except.ok.inj h).symm
      have hn2 : n ∈ opsOf (l.widgets ++
          ((if c.space_data.type = "PROPERTIES" then
              [Widget.operator "grease_pencil.layer_group_add" none (some "Add Group") []]
            else []) ++ menuCommonWidgets)) := hn
      rw [mem_opsOf_append] at hn2
      rcases hn2 with hn2 | hn2
      · exact Or.inl hn2
      · right
        by_cases hsp : c.space_data.type = "PROPERTIES" <;>
          simp [hsp, opsOf, menuCommonWidgets, allowedOps] at hn2 ⊢ <;>
          tauto
  · rcases hgp : c.grease_pencil with _ | (_ | g)
    · simp [DATA_PT_grease_pencil_layers.draw, hgp] at h
    · simp [DATA_PT_grease_pencil_layers.draw, hgp] at h
    · rw [layers_draw_eq c l g hgp] at h
      obtain rfl := (Except.ok.inj h).symm
      have hn2 : n ∈ opsOf (l.widgets ++ (layersFixedWidgets ++
          (if g.layers.active.isSome then
            [Widget.prop Target.layer "opacity" (some "Opacity") true]
          else []))) := hn
      rw [mem_opsOf_append] at hn2
      rcases hn2 with hn2 | hn2
      · exact Or.inl hn2
      · right
        rcases hla : g.layers.active with _ | la <;>
          simp [hla, opsOf, layersFixedWidgets, allowedOps] at hn2 ⊢ <;>
          tauto
  · rcases hgp : c.grease_pencil with _ | (_ | g)
    · simp [DATA_PT_grease_pencil_layer_transform.draw, hgp] at h
    · simp [DATA_PT_grease_pencil_layer_transform.draw, hgp] at h
    · rcases hla : g.layers.active with _ | la
      · simp [DATA_PT_grease_pencil_layer_transform.draw, hgp, hla] at h
      · rw [transform_draw_eq c l g la hgp hla] at h
        obtain rfl := (Except.ok.inj h).symm
        have hn2 : n ∈ opsOf (l.widgets ++
            [Widget.prop Target.layer "translation" none false,
             Widget.prop Target.layer "rotation" none false,
             Widget.prop Target.layer "scale" none false]) := hn
        rw [mem_opsOf_append] at hn2
        rcases hn2 with hn2 | hn2
        · exact Or.inl hn2
        · simp [opsOf] at hn2
  · rcases hgp : c.grease_pencil with _ | (_ | g)
    · simp [DATA_PT_grease_pencil_layer_relations.draw, hgp] at h
    · simp [DATA_PT_grease_pencil_layer_relations.draw, hgp] at h
    · rcases hla : g.layers.active with _ | la
      · simp [DATA_PT_grease_pencil_layer_relations.draw, hgp, hla] at h
      · rw [relations_draw_eq c l g la hgp hla] at h
        obtain rfl := (Except.ok.inj h).symm
        have hn2 : n ∈ opsOf (l.widgets ++
            ([Widget.prop Target.layer "parent" (some "Parent") false] ++
              relationsParentWidgets la ++
              [Widget.separator, Widget.prop Target.layer "pass_index" none false])) := hn
        rw [mem_opsOf_append] at hn2
        rcases hn2 with hn2 | hn2
        · exact Or.inl hn2
        · rw [mem_opsOf_append, mem_opsOf_append, opsOf_relationsParentWidgets] at hn2
          simp [opsOf] at hn2

/-- C4 witness: the delegation theorem applied to the menu draw at a
concrete context, for the group-add operator actually emitted there. -/
theorem C4_delegation_witness :
    "grease_pencil.layer_group_add" ∈ opsOf Layout.init.widgets ∨
      "grease_pencil.layer_group_add" ∈ allowedOps :=
  C4_delegation ctxFull Layout.init menuResultPair "grease_pencil.layer_group_add"
    (Or.inr (Or.inl rfl)) (by decide)

/-- C8: for every context satisfying the Layer panels' poll precondition
(an active layer exists), both the Transform and Relations draw methods set
the layout's `active` flag to the negation of the active layer's `lock`
flag. -/
theorem C8_active_iff_unlocked (c : Context) (l : Layout) (g : GreasePencil) (la : Layer)
    (hgp : c.grease_pencil = some (some g)) (hla : g.layers.active = some la) :
    resultActive (DATA_PT_grease_pencil_layer_transform.draw c l) = some (!la.lock) ∧
    resultActive (DATA_PT_grease_pencil_layer_relations.draw c l) = some (!la.lock) := by
  rw [transform_draw_eq c l g la hgp hla, relations_draw_eq c l g la hgp hla]
  exact ⟨rfl, rfl⟩

/-- C8 witness: at a concrete context whose active layer is locked, both
panels come out with `active = false`. -/
theorem C8_active_iff_unlocked_witness :
    resultActive (DATA_PT_grease_pencil_layer_transform.draw ctxLocked Layout.init) =
      some (!lockedLayer.lock) ∧
    resultActive (DATA_PT_grease_pencil_layer_relations.draw ctxLocked Layout.init) =
      some (!lockedLayer.lock) :=
  C8_active_iff_unlocked ctxLocked Layout.init gpLocked lockedLayer rfl rfl

/-- C9: on every context satisfying `DataButtonsPanel.poll`, the context
panel draw emits exactly one `template_ID` widget: the object's `data`
template when an active object exists, and otherwise the space's `pin_id`
template — exactly one of the two branches. -/
theorem C9_single_template (c : Context) (l : Layout)
    (h : DataButtonsPanel.poll c = Except.ok true) :
    resultWidgets (DATA_PT_context_grease_pencil.draw c l) =
      some (l.widgets ++
        [if c.object.isSome then Widget.template_ID Target.ob "data"
         else Widget.template_ID Target.space "pin_id"]) := by
  rcases hgp : c.grease_pencil with _ | v
  · simp [DataButtonsPanel.poll, hgp] at h
  · rw [ctx_draw_eq c l v hgp]
    have hv : v.isSome = true := by
      simpa [DataButtonsPanel.poll, hgp] using h
    rcases hob : c.object with _ | o <;> simp [hob, hv, resultWidgets, Layout.emit]

/-- C9 witness: the single-template theorem at a concrete context with an
active object. -/
theorem C9_single_template_witness :
    resultWidgets (DATA_PT_context_grease_pencil.draw ctxFull Layout.init) =
      some (Layout.init.widgets ++
        [if ctxFull.object.isSome then Widget.template_ID Target.ob "data"
         else Widget.template_ID Target.space "pin_id"]) :=
  C9_single_template ctxFull Layout.init rfl

/-- C10 counterexample: at a context in the properties editor with pinned
grease-pencil data but no active object (`space.type == 'PROPERTIES'`), the
Add Extra menu draw raises `AttributeError` at `context.object.data` and
emits nothing — neither the Add Group entry the claimed biconditional
requires there, nor any of the claimed unconditional entries. -/
theorem C10_counterexample :
    ctxPinned.space_data.type = "PROPERTIES" ∧
    GREASE_PENCIL_MT_grease_pencil_add_layer_extra.draw ctxPinned Layout.init =
      Except.error PyErr.attributeError :=
  ⟨rfl, rfl⟩

/-- C10 (amended): on every invocation whose context has an active object
(otherwise the draw raises `AttributeError` before emitting anything), the
Add Group entry is emitted iff the space type equals `PROPERTIES`, and the
remaining entries (both duplicate variants, show all, hide others, lock
all, unlock all, the autolock toggle) are emitted unconditionally, in
order. -/
theorem C10_menu_entries (c : Context) (l : Layout) (o : Object)
    (hob : c.object = some o) :
    resultWidgets (GREASE_PENCIL_MT_grease_pencil_add_layer_extra.draw c l) =
      some (l.widgets ++
        ((if c.space_data.type = "PROPERTIES" then
            [Widget.operator "grease_pencil.layer_group_add" none (some "Add Group") []]
          else []) ++ menuCommonWidgets)) := by
  rw [menu_draw_eq c l o hob]
  rfl

/-- C10 witness: the amended menu theorem at a concrete properties-editor
context with an active object. -/
theorem C10_menu_entries_witness :
    resultWidgets (GREASE_PENCIL_MT_grease_pencil_add_layer_extra.draw ctxFull Layout.init) =
      some (Layout.init.widgets ++
        ((if ctxFull.space_data.type = "PROPERTIES" then
            [Widget.operator "grease_pencil.layer_group_add" none (some "Add Group") []]
          else []) ++ menuCommonWidgets)) :=
  C10_menu_entries ctxFull Layout.init { data := sampleGP } rfl
